import Mathlib

/-!
Verification of the CC2022-Control-Panel protocol layer (CanSat ground station).

This development shallowly embeds the protocol core of the repository:

* the XBee-style frame encoder, `CanSat::ControlPanel::sendData`
  (src/CanSat/ControlPanel.cpp, lines 427-495) and
  `SerialStudio::Communicator::sendData` (src/SerialStudio/Communicator.cpp,
  lines 374-442);
* the stream reassembler `CanSat::ControlPanel::onDataReceived`
  (src/CanSat/ControlPanel.cpp, lines 276-311);
* the frame router `CanSat::ControlPanel::processFrame`
  (src/CanSat/ControlPanel.cpp, lines 375-421);
* the simulation feeder state machine (`setSimulationMode`,
  `setSimulationActivated`, `sendSimulatedData`, accessors; same file).

Bytes are modelled as `Nat` (each < 256 where it matters), `QByteArray` as
`List Nat`, `QString` command text as `String`.  The project builds against
Qt 6.3.0 (per its CI configuration), so the Qt container semantics used by
the reassembler are the Qt 6 ones:

* `QByteArray::left n` with `n < 0` returns the empty array
  (the inline Qt 6 implementation clamps the length with `qMax(n, 0)`);
* `QByteArray::mid pos len` with `pos < 0`, `len < 0` returns the whole
  array (`QtPrivate::QContainerImplHelper::mid`, the `Full` case);
* `QByteArray::mid pos (-1)` with `pos ≥ 0` returns the suffix from `pos`;
* `QByteArray::remove 0 n` with `n > size` clears the array.
-/

/-- ASCII text to its byte list.  Models `QString::toUtf8` for the ASCII
command and marker strings used by the program (for ASCII the UTF-8 bytes
are exactly the code points). -/
def str2bytes (s : String) : List Nat :=
  s.data.map Char.toNat

/-- `listStartsWith p l` models `QByteArray::startsWith`: `p` is an initial
segment of `l`. -/
def listStartsWith : List Nat → List Nat → Bool
  | [], _ => true
  | _ :: _, [] => false
  | a :: as, b :: bs => a == b && listStartsWith as bs

/-- First index at which the two-byte sequence `p q` occurs in the list.
`findPair p q l = some i` models `l.indexOf(pq) == i` for the two-byte
marker `pq`; `none` models `!l.contains(pq)`.  The telemetry markers
`"/*"` and `"*/"` of `onDataReceived` are both two bytes long. -/
def findPair (p q : Nat) : List Nat → Option Nat
  | a :: b :: rest =>
    if a = p ∧ b = q then some 0
    else (findPair p q (b :: rest)).map (· + 1)
  | _ => none

/-- The extraction loop of `CanSat::ControlPanel::onDataReceived`
(src/CanSat/ControlPanel.cpp, lines 281-303), run on the working copy
`cursor` of the accumulated buffer.  Returns the list of frames passed to
`processFrame`, in order, and the final value of the `bytes` counter.

The loop condition is `cursor.contains("/*") && cursor.contains("*/")`
(note: no requirement that the end marker occur after the start marker).
Each iteration: `sIndex = cursor.indexOf("/*")`,
`cursor = cursor.mid(sIndex + 2)`, `bytes += sIndex + 2`,
`fIndex = cursor.indexOf("*/")`, `frame = cursor.left(fIndex)`,
`processFrame(frame)`, `cursor = cursor.mid(fIndex, -1)`,
`bytes += fIndex + 2`.  When the remaining cursor holds no `"*/"` after
the consumed start marker, `fIndex` is `-1`: then `cursor.left(-1)` is the
empty array (an empty frame, which `processFrame` ignores),
`cursor.mid(-1, -1)` is the whole cursor, and `bytes` grows by `-1 + 2`.
`/` is byte 47, `*` is byte 42.  Fuel is structural; `cursor.length + 1`
is always enough because every iteration shortens the cursor by at least
two bytes. -/
def runLoop : Nat → List Nat → List (List Nat) × Nat
  | 0, _ => ([], 0)
  | fuel + 1, cursor =>
    match findPair 47 42 cursor with
    | none => ([], 0)
    | some s =>
      match findPair 42 47 cursor with
      | none => ([], 0)
      | some _ =>
        let c2 := cursor.drop (s + 2)
        match findPair 42 47 c2 with
        | some f =>
          let r := runLoop fuel (c2.drop f)
          ((c2.take f) :: r.1, (s + 2 + f + 2) + r.2)
        | none =>
          let r := runLoop fuel c2
          ([] :: r.1, (s + 2 + 1) + r.2)

/-- One receive event, before the overflow purge: append the chunk to the
buffer (`m_dataBuffer.append(data)`), run the extraction loop, and remove
the consumed prefix (`m_dataBuffer.remove(0, bytes)`).  Returns the frames
handed to `processFrame` and the remaining buffer. -/
def receiveRaw (buf data : List Nat) : List (List Nat) × List Nat :=
  ((runLoop ((buf ++ data).length + 1) (buf ++ data)).1,
   (buf ++ data).drop (runLoop ((buf ++ data).length + 1) (buf ++ data)).2)

/-- A full receive event, `CanSat::ControlPanel::onDataReceived`
(src/CanSat/ControlPanel.cpp, lines 276-311): after the extraction loop,
the whole buffer is cleared when more than `1024 * 10 * 10` bytes remain
unconsumed. -/
def receiveOne (buf data : List Nat) : List (List Nat) × List Nat :=
  ((receiveRaw buf data).1,
   if 1024 * 10 * 10 < (receiveRaw buf data).2.length then []
   else (receiveRaw buf data).2)

/-- Deliver a list of chunks through successive receive events, starting
from buffer `buf`; collects all frames handed to `processFrame`, in order,
and the final buffer. -/
def deliver (buf : List Nat) : List (List Nat) → List (List Nat) × List Nat
  | [] => ([], buf)
  | c :: cs =>
    ((receiveOne buf c).1 ++ (deliver (receiveOne buf c).2 cs).1,
     (deliver (receiveOne buf c).2 cs).2)

/-! ### Frame router: `CanSat::ControlPanel::processFrame` -/

/-- Open/closed state of the two session log files `m_payloadCsv` and
`m_containerCsv`. -/
structure LogState where
  payloadOpen : Bool
  containerOpen : Bool
deriving DecidableEq

/-- Result of one `processFrame` call: the log-file state afterwards,
whether the frame was surfaced to the UI (the trailing
`Q_EMIT printLn("  [RX]..." )`), and the lines appended to each log. -/
structure FrameResult where
  st : LogState
  display : Bool
  payloadWrites : List (List Nat)
  containerWrites : List (List Nat)
deriving DecidableEq

/-- `CanSat::ControlPanel::processFrame` (src/CanSat/ControlPanel.cpp,
lines 375-421).  `ok` is the outcome of `createCsv` for this call (the
environment: whether the log file could be created/opened).  An empty
frame returns immediately.  A frame starting with `"6026"` goes to the
payload log, `"1026"` to the container log; when the log is not yet open
and `createCsv` fails, the function returns before the display emit, so
the frame is dropped entirely.  Every other path ends with the display
emit. -/
def processFrame (ok : Bool) (st : LogState) (frame : List Nat) : FrameResult :=
  if frame = [] then ⟨st, false, [], []⟩
  else if listStartsWith (str2bytes "6026") frame then
    if st.payloadOpen then ⟨st, true, [frame], []⟩
    else if ok then ⟨⟨true, st.containerOpen⟩, true, [frame], []⟩
    else ⟨st, false, [], []⟩
  else if listStartsWith (str2bytes "1026") frame then
    if st.containerOpen then ⟨st, true, [], [frame]⟩
    else if ok then ⟨⟨st.payloadOpen, true⟩, true, [], [frame]⟩
    else ⟨st, false, [], []⟩
  else ⟨st, true, [], []⟩

/-! ### Frame encoders

Two parallel implementations exist in the repository.
`CanSat::ControlPanel::sendData` (ControlPanel.cpp, 427-495) builds the
inner frame with the 64-bit address starting `0x00 0x13`, computes the
checksum and the length over it, and only afterwards substitutes the
first two address bytes with `0x7D 0x33` in the emitted frame.
`SerialStudio::Communicator::sendData` (Communicator.cpp, 374-442) builds
the frame directly with `0x7D 0x33` and computes the checksum over the
emitted bytes, but writes `length - 6` into the length field. -/

/-- The inner frame of `CanSat::ControlPanel::sendData` as first built
(frame type `0x10`, no-ack `0x00`, frame id `0x00`, 64-bit address
`00 13 A2 00 41 B1 8C 8D`, 16-bit address `FF FE`, broadcast `0x00`,
options `0x00`, then the UTF-8 command bytes), before the MSB-address
substitution. -/
def xbeePayloadPre (data : List Nat) : List Nat :=
  [0x10, 0x00, 0x00,
   0x00, 0x13, 0xA2, 0x00, 0x41, 0xB1, 0x8C, 0x8D,
   0xFF, 0xFE,
   0x00, 0x00] ++ data

/-- The `quint16` running sum over the pre-substitution frame
(ControlPanel.cpp, 466-469). -/
def cpSum (data : List Nat) : Nat :=
  (xbeePayloadPre data).sum % 65536

/-- `quint8 crc = 0xff - ((sum) & 0xFF)` (ControlPanel.cpp, 472). -/
def cpCrc (data : List Nat) : Nat :=
  0xFF - cpSum data % 256

/-- `quint16 length = frame.length() - 1` (ControlPanel.cpp, 475). -/
def cpLength (data : List Nat) : Nat :=
  ((xbeePayloadPre data).length - 1) % 65536

/-- The inner frame actually emitted: bytes 3 and 4 (the first two bytes
of the 64-bit address) replaced by `0x7D 0x33` after the checksum was
computed (`frame.replace(3, 2, msbAddress)`, ControlPanel.cpp, 479-482). -/
def xbeePayloadPost (data : List Nat) : List Nat :=
  (xbeePayloadPre data).take 3 ++ [0x7D, 0x33] ++ (xbeePayloadPre data).drop 5

/-- The full API frame written by `CanSat::ControlPanel::sendData`
(ControlPanel.cpp, 485-490): start byte `0x7E`, big-endian length field,
the substituted inner frame, then the checksum byte. -/
def cpApiFrame (data : List Nat) : List Nat :=
  [0x7E, cpLength data / 256 % 256, cpLength data % 256]
    ++ xbeePayloadPost data ++ [cpCrc data]

/-- The inner frame of `SerialStudio::Communicator::sendData`
(Communicator.cpp, 384-411): identical layout, but the 64-bit address
starts `0x7D 0x33` from the outset. -/
def commPayload (data : List Nat) : List Nat :=
  [0x10, 0x00, 0x00,
   0x7D, 0x33, 0xA2, 0x00, 0x41, 0xB1, 0x8C, 0x8D,
   0xFF, 0xFE,
   0x00, 0x00] ++ data

/-- `int sum` over the emitted frame (Communicator.cpp, 414-416). -/
def commSum (data : List Nat) : Nat :=
  (commPayload data).sum

/-- `quint8 crc = 0xFF - (sum & 0xFF)` (Communicator.cpp, 419). -/
def commCrc (data : List Nat) : Nat :=
  0xFF - commSum data % 256

/-- `quint16 length = frame.length()` (Communicator.cpp, 422). -/
def commLength (data : List Nat) : Nat :=
  (commPayload data).length % 65536

/-- The full API frame written by `SerialStudio::Communicator::sendData`
(Communicator.cpp, 425-430): start byte, big-endian field holding
`length - 6`, the inner frame, the checksum. -/
def commApiFrame (data : List Nat) : List Nat :=
  [0x7E, (commLength data - 6) / 256 % 256, (commLength data - 6) % 256]
    ++ commPayload data ++ [commCrc data]

/-- Big-endian value of the two bytes following the `0x7E` start
delimiter of an API frame. -/
def fieldVal : List Nat → Nat
  | _ :: b1 :: b2 :: _ => b1 * 256 + b2
  | _ => 0

/-! ### Simulation feeder: the `CanSat::ControlPanel` state machine

The fields mirror the members of `CanSat::ControlPanel` plus the external
environment: `conn` is `SerialStudio::Plugin::instance().isConnected()`,
and `pending` counts the `QTimer::singleShot(_, this,
SLOT(sendSimulatedData()))` one-shot timers currently scheduled
(ControlPanel.cpp, 247 and 360).  All handlers run on one event thread,
so an execution is a sequence of events applied to the state. -/

structure CPState where
  row : Nat
  csvData : List (List String)
  csvLoaded : Bool
  csvName : String
  simEnabled : Bool
  simActivated : Bool
  containerTelemetry : Bool
  conn : Bool
  pending : Nat
deriving DecidableEq

/-- `CanSat::ControlPanel::simulationEnabled` (ControlPanel.cpp, 73-76). -/
def simulationEnabled (s : CPState) : Bool :=
  s.simEnabled

/-- `CanSat::ControlPanel::simulationActivated` (ControlPanel.cpp, 81-84):
`simulationEnabled() && m_simulationActivated`. -/
def simulationActivated (s : CPState) : Bool :=
  simulationEnabled s && s.simActivated

/-- `CanSat::ControlPanel::csvFileName` (ControlPanel.cpp, 113-122): the
loaded file name when a CSV is open, otherwise the translated placeholder
text.  `csvName` is never empty for a loaded file because `openCsv`
aborts on an empty selection (ControlPanel.cpp, 137-138). -/
def csvFileName (s : CPState) : String :=
  if s.csvLoaded then s.csvName else "No CSV file selected"

/-- `CanSat::ControlPanel::setSimulationMode` (ControlPanel.cpp, 217-232).
Returns the new state and the commands handed to `sendData` (which all
succeed here: the command is non-empty and the guard established the
connection).  A disconnected call is a no-op. -/
def setSimulationMode (s : CPState) (enabled : Bool) : CPState × List String :=
  if s.conn then
    ({ s with simActivated := false, simEnabled := enabled },
     ["CMD,1026,SIM," ++ (if enabled then "ENABLE" else "DISABLE") ++ ";"])
  else (s, [])

/-- `CanSat::ControlPanel::setSimulationActivated` (ControlPanel.cpp,
237-253).  On activation it schedules `sendSimulatedData` through a
5000 ms single-shot timer (`pending + 1`); no simulated row is sent in
the call itself.  Note the guard is `activated && !csvFileName().isEmpty()`
on the accessor, not on the loaded data. -/
def setSimulationActivated (s : CPState) (activated : Bool) : CPState × List String :=
  if s.conn && simulationEnabled s then
    if activated && !(csvFileName s).isEmpty then
      ({ s with simActivated := true, pending := s.pending + 1 },
       ["CMD,1026,SIM,ACTIVATE;"])
    else
      setSimulationMode s false
  else (s, [])

/-- Body of `CanSat::ControlPanel::sendSimulatedData` (ControlPanel.cpp,
329-370).  In range it sends `"CMD,1026,SIMP," + row.first() + ";"`
(never empty, so the error branch is dead), advances the cursor, and
reschedules itself with a 1000 ms single-shot (`pending + 1`); past the
end it calls `setSimulationActivated(false)`.  The `m_row >= 0` conjunct
of the range check is always true for the `Nat` model of `m_row`. -/
def sendSimulatedData (s : CPState) : CPState × List String :=
  if !(simulationActivated s) || !s.conn then (s, [])
  else if s.row < s.csvData.length then
    let cmd := "CMD,1026,SIMP," ++ (s.csvData.getD s.row []).headD "" ++ ";"
    ({ s with row := s.row + 1, pending := s.pending + 1 },
     if cmd.isEmpty then [] else [cmd])
  else
    setSimulationActivated s false

/-- One scheduled single-shot timer firing: consumes a pending shot and
runs `sendSimulatedData`.  With no shot pending nothing happens. -/
def tick (s : CPState) : CPState × List String :=
  if s.pending = 0 then (s, [])
  else sendSimulatedData { s with pending := s.pending - 1 }

/-- The external events that drive the feeder on the single event
thread: a pending timer firing, the two user toggles, and the transport
connection changing state (`QTcpSocket` connected/disconnected; neither
touches the feeder flags). -/
inductive Ev where
  | evTick
  | evSetMode (b : Bool)
  | evSetActivated (b : Bool)
  | evConnect
  | evDisconnect
deriving DecidableEq

/-- Event dispatch. -/
def step (s : CPState) : Ev → CPState × List String
  | .evTick => tick s
  | .evSetMode b => setSimulationMode s b
  | .evSetActivated b => setSimulationActivated s b
  | .evConnect => ({ s with conn := true }, [])
  | .evDisconnect => ({ s with conn := false }, [])

/-- Run a sequence of events, collecting all commands sent. -/
def run (s : CPState) : List Ev → CPState × List String
  | [] => (s, [])
  | e :: es =>
    ((run (step s e).1 es).1, (step s e).2 ++ (run (step s e).1 es).2)

/-- Recognizes a simulated-pressure row command. -/
def isSimpCmd (c : String) : Bool :=
  listStartsWith (str2bytes "CMD,1026,SIMP,") (str2bytes c)

/-- A base state: fresh `ControlPanel` (constructor, ControlPanel.cpp,
41-59) with the transport disconnected. -/
def st0 : CPState :=
  ⟨0, [], false, "", false, false, false, false, 0⟩

/-! ### Helper lemmas -/

/-- The last element of a list extended by one element. -/
lemma getLast?_append_single {α : Type} (l : List α) (a : α) :
    (l ++ [a]).getLast? = some a := by
  rw [List.getLast?_append_cons]
  rfl

/-- A run of one repeated byte other than `p` contains no `p q` pair. -/
lemma findPair_replicate (p q a : Nat) (hp : a ≠ p) :
    ∀ n, findPair p q (List.replicate n a) = none := by
  intro n
  induction n with
  | zero => rfl
  | succ k ih =>
    cases k with
    | zero => rfl
    | succ m =>
      have hrep : List.replicate (m + 2) a = a :: a :: List.replicate m a := rfl
      have hrep1 : List.replicate (m + 1) a = a :: List.replicate m a := rfl
      rw [hrep, findPair]
      rw [hrep1] at ih
      simp [hp, ih]

/-- With no start marker in the cursor, the extraction loop does
nothing. -/
lemma runLoop_no_start (f : Nat) (c : List Nat) (h : findPair 47 42 c = none) :
    runLoop (f + 1) c = ([], 0) := by
  simp [runLoop, h]

/-- With no start marker in the accumulated buffer, a receive event
extracts nothing and keeps everything (before the purge check). -/
lemma receiveRaw_no_start (buf data : List Nat)
    (h : findPair 47 42 (buf ++ data) = none) :
    receiveRaw buf data = ([], buf ++ data) := by
  unfold receiveRaw
  rw [runLoop_no_start _ _ h]
  rfl

/-- The sum of the pre-substitution inner frame. -/
lemma xbeePayloadPre_sum (data : List Nat) :
    (xbeePayloadPre data).sum = 1229 + data.sum := by
  simp [xbeePayloadPre]
  omega

/-- The sum of the emitted (substituted) inner frame: `0x9D = 157` more
than the pre-substitution sum. -/
lemma xbeePayloadPost_sum (data : List Nat) :
    (xbeePayloadPost data).sum = 1386 + data.sum := by
  simp [xbeePayloadPost, xbeePayloadPre]
  omega

/-- Length of the emitted ControlPanel inner frame. -/
lemma xbeePayloadPost_length (data : List Nat) :
    (xbeePayloadPost data).length = 15 + data.length := by
  simp [xbeePayloadPost, xbeePayloadPre]
  omega

/-- Length of the pre-substitution ControlPanel inner frame. -/
lemma xbeePayloadPre_length (data : List Nat) :
    (xbeePayloadPre data).length = 15 + data.length := by
  simp [xbeePayloadPre]
  omega

/-- Length of the Communicator inner frame. -/
lemma commPayload_length (data : List Nat) :
    (commPayload data).length = 15 + data.length := by
  simp [commPayload]
  omega


/-! ### Claims -/

/-- C1, as stated, fails on `CanSat::ControlPanel::sendData`: the claim
says the final checksum byte equals `0xFF` minus the sum (mod 256) of the
payload bytes actually placed in the emitted frame, but the code computes
the checksum before substituting bytes `0x00 0x13` of the 64-bit address
with `0x7D 0x33`, so for the command `"CMD,1026,SIM,ENABLE;"` the emitted
payload sums to a different checksum than the one emitted. -/
theorem c1_checksum_counterexample :
    (cpApiFrame (str2bytes "CMD,1026,SIM,ENABLE;")).getLast?
      ≠ some (0xFF -
          (xbeePayloadPost (str2bytes "CMD,1026,SIM,ENABLE;")).sum % 256) := by
  decide

/-- C1 (amended).  For every non-empty command byte string, the checksum
byte of the `SerialStudio::Communicator::sendData` frame equals `0xFF`
minus the sum (mod 256) of the emitted payload, exactly as the claim
states; the checksum byte of the `CanSat::ControlPanel::sendData` frame
instead equals `0xFF - ((sum of the emitted payload + 0x63) mod 256)` —
equivalently, `0xFF` minus the mod-256 sum of the payload as it stood
before the `0x00 0x13 → 0x7D 0x33` address substitution, whose bytes sum
`0x9D` lower. -/
theorem c1_checksum_amended (data : List Nat) (hne : data ≠ []) :
    (cpApiFrame data).getLast?
      = some (0xFF - ((xbeePayloadPost data).sum + 0x63) % 256) ∧
    (commApiFrame data).getLast?
      = some (0xFF - (commPayload data).sum % 256) := by
  constructor
  · unfold cpApiFrame
    rw [getLast?_append_single]
    have h1 := xbeePayloadPre_sum data
    have h2 := xbeePayloadPost_sum data
    unfold cpCrc cpSum
    rw [h1, h2]
    simp only [Option.some.injEq]
    omega
  · unfold commApiFrame
    rw [getLast?_append_single]
    rfl

/-- Witness for C1 at the concrete command `"A;"`. -/
theorem c1_checksum_witness :
    (cpApiFrame [65, 59]).getLast?
      = some (0xFF - ((xbeePayloadPost [65, 59]).sum + 0x63) % 256) ∧
    (commApiFrame [65, 59]).getLast?
      = some (0xFF - (commPayload [65, 59]).sum % 256) :=
  c1_checksum_amended [65, 59] (by decide)

/-- C2 is a code bug against the spec's no-frame-loss guarantee.  Failing
input: deliver `"/*a*//*b"` and then `"c*/"` as two chunks, against the
same eleven bytes in one chunk.  One chunk yields frames `"a"` and
`"bc"` and an empty buffer.  Two chunks yield frame `"a"`, then an empty
frame (the loop sees both markers in `"*//*b"`, consumes the dangling
start marker, and `cursor.left(-1)` is empty), and the over-counted
`bytes` counter removes the whole buffer, so `"b"` is discarded and the
later `"c*/"` never completes a frame: frame `"bc"` is lost even though
no marker was split across the chunk boundary.  `[[97]]` vs
`[[97], [98, 99]]` are the non-empty (routed) frames. -/
theorem c2_chunking_bug :
    deliver [] [str2bytes "/*a*//*b", str2bytes "c*/"]
      = ([[97], []], str2bytes "c*/") ∧
    deliver [] [str2bytes "/*a*//*bc*/"] = ([[97], [98, 99]], []) ∧
    (deliver [] [str2bytes "/*a*//*b", str2bytes "c*/"]).1.filter
        (fun f => !f.isEmpty) = [[97]] ∧
    (deliver [] [str2bytes "/*a*//*bc*/"]).1.filter
        (fun f => !f.isEmpty) = [[97], [98, 99]] ∧
    deliver [] [str2bytes "/*a*//*b", str2bytes "c*/"]
      ≠ deliver [] [str2bytes "/*a*//*bc*/"] := by
  decide

/-- C3, as stated, fails on both encoders: for the command
`"CMD,1026,ST,01:02:03;"` the big-endian length field of the
ControlPanel frame is one short of the payload length (the code writes
`frame.length() - 1`), and the Communicator field is six short (the code
writes `length - 6`). -/
theorem c3_length_counterexample :
    fieldVal (cpApiFrame (str2bytes "CMD,1026,ST,01:02:03;"))
      ≠ (xbeePayloadPost (str2bytes "CMD,1026,ST,01:02:03;")).length ∧
    fieldVal (commApiFrame (str2bytes "CMD,1026,ST,01:02:03;"))
      ≠ (commPayload (str2bytes "CMD,1026,ST,01:02:03;")).length := by
  decide

/-- C3 (amended).  The two bytes after the `0x7E` start delimiter, read
big-endian, equal the payload byte length minus one for
`CanSat::ControlPanel::sendData`, and the payload byte length minus six
for `SerialStudio::Communicator::sendData` (for any command short enough
that the `quint16` length does not wrap). -/
theorem c3_length_amended (data : List Nat) (h : data.length + 15 < 65536) :
    fieldVal (cpApiFrame data) = (xbeePayloadPost data).length - 1 ∧
    fieldVal (commApiFrame data) = (commPayload data).length - 6 := by
  constructor
  · show cpLength data / 256 % 256 * 256 + cpLength data % 256
      = (xbeePayloadPost data).length - 1
    rw [xbeePayloadPost_length]
    unfold cpLength
    rw [xbeePayloadPre_length]
    omega
  · show (commLength data - 6) / 256 % 256 * 256 + (commLength data - 6) % 256
      = (commPayload data).length - 6
    unfold commLength
    rw [commPayload_length]
    omega

/-- Witness for C3 at the concrete command `"A;"`. -/
theorem c3_length_witness :
    fieldVal (cpApiFrame [65, 59]) = (xbeePayloadPost [65, 59]).length - 1 ∧
    fieldVal (commApiFrame [65, 59]) = (commPayload [65, 59]).length - 6 :=
  c3_length_amended [65, 59] (by decide)

/-- C4 (confirmed).  From an empty buffer, the bytes
`"noise/*6026,A,B*/moretrailing"` in one receive event extract exactly
the frame `"6026,A,B"`, leave `"moretrailing"` buffered (12 bytes, no
purge), and `processFrame` routes that frame to the payload log and
surfaces it to the UI. -/
theorem c4_single_frame_extraction :
    receiveOne [] (str2bytes "noise/*6026,A,B*/moretrailing")
      = ([str2bytes "6026,A,B"], str2bytes "moretrailing") ∧
    (processFrame true ⟨false, false⟩ (str2bytes "6026,A,B")).payloadWrites
      = [str2bytes "6026,A,B"] ∧
    (processFrame true ⟨false, false⟩ (str2bytes "6026,A,B")).containerWrites
      = [] ∧
    (processFrame true ⟨false, false⟩ (str2bytes "6026,A,B")).display
      = true := by
  decide

/-- C5, as stated, fails: the purge threshold in the code is
`1024 * 10 * 10 = 102400` bytes, not 10,240, so after a receive event of
20,000 marker-free bytes the buffer retains all 20,000 bytes — more than
the 10,240 the claim allows. -/
theorem c5_threshold_counterexample :
    10240 < (receiveOne [] (List.replicate 20000 65)).2.length := by
  have h : findPair 47 42 ([] ++ List.replicate 20000 65) = none := by
    rw [List.nil_append]
    exact findPair_replicate 47 42 65 (by decide) 20000
  have hr : receiveRaw [] (List.replicate 20000 65)
      = ([], List.replicate 20000 65) := receiveRaw_no_start [] _ h
  have ho : receiveOne [] (List.replicate 20000 65)
      = ([], List.replicate 20000 65) := by
    unfold receiveOne
    rw [hr]
    norm_num [List.length_replicate]
  rw [ho]
  norm_num [List.length_replicate]

/-- C5 (amended).  After any receive event the inbound buffer retains at
most `1024 * 10 * 10 = 102400` bytes; whenever the unconsumed remainder
exceeds that threshold the entire buffer is cleared, so no later frame
can ever be produced from those bytes. -/
theorem c5_overflow_amended (buf data : List Nat) :
    (receiveOne buf data).2.length ≤ 1024 * 10 * 10 ∧
    (1024 * 10 * 10 < (receiveRaw buf data).2.length →
      (receiveOne buf data).2 = []) := by
  constructor
  · by_cases hc : 1024 * 10 * 10 < (receiveRaw buf data).2.length
    · simp [receiveOne, hc]
    · simp [receiveOne, hc]
      omega
  · intro hc
    simp [receiveOne, hc]

/-- Witness for C5: a receive event of 102,401 marker-free bytes leaves
more than the threshold unconsumed, and the buffer is cleared. -/
theorem c5_overflow_witness :
    (receiveOne [] (List.replicate 102401 65)).2 = [] := by
  apply (c5_overflow_amended [] (List.replicate 102401 65)).2
  have h : findPair 47 42 ([] ++ List.replicate 102401 65) = none := by
    rw [List.nil_append]
    exact findPair_replicate 47 42 65 (by decide) 102401
  rw [receiveRaw_no_start [] _ h]
  norm_num [List.length_replicate]

/-- C6, as stated, fails: when a tagged frame arrives while its log is
not yet open and `createCsv` fails, `processFrame` returns before the
`printLn` display emit, so the frame is not surfaced to observers. -/
theorem c6_display_counterexample :
    (processFrame false ⟨false, false⟩ (str2bytes "6026,A,B,C")).display
      = false := by
  decide

/-- C6 (amended).  A non-empty frame is surfaced as a display event in
every case except one: its tag matches (`"6026"` or `"1026"`), the
corresponding log is not yet open, and creating the log file fails.  In
that case the frame is dropped entirely — no display, no write, state
unchanged — so only this frame is affected and later frames are
processed normally. -/
theorem c6_display_amended (ok : Bool) (st : LogState) (frame : List Nat)
    (h : frame ≠ []) :
    ((processFrame ok st frame).display = false ↔
      (listStartsWith (str2bytes "6026") frame = true ∧
        st.payloadOpen = false ∧ ok = false) ∨
      (listStartsWith (str2bytes "6026") frame = false ∧
        listStartsWith (str2bytes "1026") frame = true ∧
        st.containerOpen = false ∧ ok = false)) ∧
    ((processFrame ok st frame).display = false →
      (processFrame ok st frame).st = st ∧
      (processFrame ok st frame).payloadWrites = [] ∧
      (processFrame ok st frame).containerWrites = []) := by
  cases hp : listStartsWith (str2bytes "6026") frame <;>
    cases hq : listStartsWith (str2bytes "1026") frame <;>
      cases hP : st.payloadOpen <;>
        cases hC : st.containerOpen <;>
          cases ok <;>
            simp [processFrame, h, hp, hq, hP, hC]

/-- Witness for C6: a container frame with a successful log creation is
displayed. -/
theorem c6_display_witness :
    (processFrame true ⟨false, false⟩ (str2bytes "1026,Z")).display = true := by
  have h := (c6_display_amended true ⟨false, false⟩ (str2bytes "1026,Z")
    (by decide)).1
  cases hd : (processFrame true ⟨false, false⟩ (str2bytes "1026,Z")).display
  · rw [hd] at h
    have h2 := h.mp rfl
    simp at h2
  · rfl

/-- The feeder state in which simulation mode is enabled and the
transport is connected, but no CSV file has been loaded. -/
def st7 : CPState :=
  { st0 with simEnabled := true, conn := true }

/-- The same but with a two-row CSV loaded. -/
def st7L : CPState :=
  { st0 with simEnabled := true, conn := true, csvLoaded := true,
             csvName := "sim.csv", csvData := [["10"], ["20"]] }

/-- C7 is a code bug: activating simulation with no loaded dataset is
accepted, not rejected.  `csvFileName()` returns the placeholder text
`"No CSV file selected"` when nothing is loaded, so the guard
`activated && !csvFileName().isEmpty()` never fails: the activated flag
is set and the activation command is transmitted anyway, contradicting
the claim (and the spec).  With a loaded dataset the call matches the
claim: it sends only the activation command and schedules the first
simulated send on the 5000 ms one-shot timer instead of sending a row
itself. -/
theorem c7_activation_guard_bug :
    (csvFileName st7).isEmpty = false ∧
    ((setSimulationActivated st7 true).1).simActivated = true ∧
    simulationActivated ((setSimulationActivated st7 true).1) = true ∧
    (setSimulationActivated st7 true).2 = ["CMD,1026,SIM,ACTIVATE;"] ∧
    ((setSimulationActivated st7 true).1).pending = st7.pending + 1 ∧
    ((setSimulationActivated st7L true).1).simActivated = true ∧
    (setSimulationActivated st7L true).2 = ["CMD,1026,SIM,ACTIVATE;"] ∧
    ((setSimulationActivated st7L true).1).pending = st7L.pending + 1 := by
  decide

/-- A feeder state that is ACTIVE and connected with an empty dataset,
one send tick pending: the next tick reaches end-of-dataset. -/
def st8 : CPState :=
  { st0 with csvLoaded := true, csvName := "sim.csv", simEnabled := true,
             simActivated := true, conn := true, pending := 1 }

/-- C8, as stated, fails: when the cursor reaches the end of the dataset
the feeder does not return to ENABLED_IDLE.  `sendSimulatedData` calls
`setSimulationActivated(false)`, which falls into `setSimulationMode(false)`
and clears the enabled flag too, transmitting the mode-disable command. -/
theorem c8_end_of_dataset_counterexample :
    ((tick st8).1).simEnabled = false ∧
    simulationEnabled ((tick st8).1) = false ∧
    ((tick st8).1).simActivated = false ∧
    (tick st8).2 = ["CMD,1026,SIM,DISABLE;"] := by
  decide

/-- C8 (amended).  When the send loop reaches the end of the dataset
while ACTIVE and connected — and likewise on `activate(false)` — the
feeder clears BOTH flags (it ends up DISABLED, not ENABLED_IDLE) and
transmits the simulation-mode-disable command `CMD,1026,SIM,DISABLE;`. -/
theorem c8_end_of_dataset_amended (s : CPState) (hc : s.conn = true)
    (ha : simulationActivated s = true) (he : s.csvData.length ≤ s.row) :
    ((sendSimulatedData s).1.simActivated = false ∧
     (sendSimulatedData s).1.simEnabled = false ∧
     (sendSimulatedData s).2 = ["CMD,1026,SIM,DISABLE;"]) ∧
    ((setSimulationActivated s false).1.simActivated = false ∧
     (setSimulationActivated s false).1.simEnabled = false ∧
     (setSimulationActivated s false).2 = ["CMD,1026,SIM,DISABLE;"]) := by
  have hE : s.simEnabled = true := by
    have h2 := ha
    unfold simulationActivated simulationEnabled at h2
    exact ((Bool.and_eq_true _ _).mp h2).1
  have hlt : ¬ s.row < s.csvData.length := Nat.not_lt.mpr he
  unfold sendSimulatedData setSimulationActivated setSimulationMode
    simulationEnabled
  simp [hc, ha, hE, hlt]

/-- Witness for C8 at the concrete end-of-dataset state. -/
theorem c8_end_of_dataset_witness :
    (sendSimulatedData st8).2 = ["CMD,1026,SIM,DISABLE;"] :=
  (c8_end_of_dataset_amended st8 rfl (by decide) (by decide)).1.2.2

/-- A reachable state with the raw activated flag set while the
transport is disconnected (activate, then the socket drops). -/
def st9 : CPState :=
  { st0 with simEnabled := true, simActivated := true, conn := false }

/-- C9, as stated, fails in one conjunct: a `setSimulationMode` call made
while the transport is disconnected is a complete no-op and does NOT
clear the raw activated flag. -/
theorem c9_clear_counterexample :
    ((setSimulationMode st9 false).1).simActivated = true ∧
    (setSimulationMode st9 false).1 = st9 := by
  decide

/-- C9 (amended).  The public accessor conjoins the two flags, so
`simulationActivated()` implies `simulationEnabled()` in EVERY state
(reachable or not); and every `setSimulationMode` call made while the
transport is connected clears the raw activated flag.  (A disconnected
call is a no-op and clears nothing.) -/
theorem c9_invariant_amended :
    (∀ s : CPState, simulationActivated s = true → simulationEnabled s = true) ∧
    (∀ (s : CPState) (b : Bool), s.conn = true →
      ((setSimulationMode s b).1).simActivated = false) := by
  constructor
  · intro s h
    unfold simulationActivated at h
    exact ((Bool.and_eq_true _ _).mp h).1
  · intro s b hc
    unfold setSimulationMode
    simp [hc]

/-- The activated-and-connected state used to witness C9. -/
def st9w : CPState :=
  { st0 with simEnabled := true, simActivated := true, conn := true }

/-- Witness for C9 at a concrete activated state. -/
theorem c9_invariant_witness :
    simulationEnabled st9w = true ∧
    ((setSimulationMode st9w true).1).simActivated = false :=
  ⟨c9_invariant_amended.1 st9w (by decide),
   c9_invariant_amended.2 st9w true (by decide)⟩

/-- No event other than a (successful) `setSimulationActivated(true)`
can create a pending send tick or emit a simulated-row command when no
tick is pending. -/
lemma step_keeps_idle (s : CPState) (e : Ev) (h0 : s.pending = 0)
    (hne : e ≠ Ev.evSetActivated true) :
    (step s e).1.pending = 0 ∧ ∀ c ∈ (step s e).2, isSimpCmd c = false := by
  cases e with
  | evTick =>
    unfold step tick
    simp [h0]
  | evSetMode b =>
    unfold step setSimulationMode
    cases hc : s.conn <;> cases b <;> simp [h0] <;> decide
  | evSetActivated b =>
    cases b
    · unfold step setSimulationActivated setSimulationMode
      cases hg : s.conn && simulationEnabled s <;> simp [hg, h0]
      · cases hc : s.conn <;> simp [h0]
        decide
    · exact absurd rfl hne
  | evConnect =>
    unfold step
    simp [h0]
  | evDisconnect =>
    unfold step
    simp [h0]

/-- C10, as stated, fails in its "until the operator deactivates and
reactivates" clause: after a tick fires while ACTIVE but disconnected
(killing the timer chain), a single fresh `setSimulationActivated(true)`
— with NO deactivation anywhere in the trace — restarts the loop once
the transport reconnects, and a simulated-row command is sent. -/
theorem c10_resume_counterexample :
    (run { st0 with csvData := [["10"]], csvLoaded := true,
                    csvName := "sim.csv", simEnabled := true,
                    simActivated := true, conn := false, pending := 1 }
        [Ev.evTick, Ev.evConnect, Ev.evSetActivated true, Ev.evTick]).2
      = ["CMD,1026,SIM,ACTIVATE;", "CMD,1026,SIMP,10;"] ∧
    isSimpCmd "CMD,1026,SIMP,10;" = true ∧
    ([Ev.evTick, Ev.evConnect, Ev.evSetActivated true, Ev.evTick].all
      fun e => !(e == Ev.evSetActivated false) && !(e == Ev.evSetMode false))
      = true := by
  decide

/-- C10 (amended).  A send tick that fires while ACTIVE but disconnected
consumes the pending one-shot without sending a row, advancing the
cursor, or rescheduling; and from any state with no tick pending, no
sequence of events that contains no `setSimulationActivated(true)` call
ever sends a simulated-row command or creates a pending tick — in
particular reconnection alone never resumes the loop.  (A fresh
activation call is what resumes it; a prior deactivation is not
required.) -/
theorem c10_dead_tick_amended :
    (∀ s : CPState, s.pending = 1 → simulationActivated s = true →
      s.conn = false → tick s = ({ s with pending := 0 }, [])) ∧
    (∀ (s : CPState) (evs : List Ev), s.pending = 0 →
      (∀ e ∈ evs, e ≠ Ev.evSetActivated true) →
      (run s evs).1.pending = 0 ∧
      ∀ c ∈ (run s evs).2, isSimpCmd c = false) := by
  constructor
  · intro s h1 h2 h3
    unfold tick sendSimulatedData
    simp [h1, h2, h3]
  · intro s evs
    induction evs generalizing s with
    | nil =>
      intro h0 _
      exact ⟨h0, by simp [run]⟩
    | cons e es ih =>
      intro h0 hne
      have hs := step_keeps_idle s e h0 (hne e (by simp))
      have ht := ih (step s e).1 hs.1 (fun x hx => hne x (by simp [hx]))
      refine ⟨ht.1, ?_⟩
      intro c hcm
      rcases List.mem_append.mp hcm with hm | hm
      · exact hs.2 c hm
      · exact ht.2 c hm

/-- The ACTIVE-but-disconnected state with one pending tick, used to
witness C10. -/
def st10w : CPState :=
  { st0 with simEnabled := true, simActivated := true, conn := false,
             pending := 1 }

/-- Witness for C10: the dead tick at the concrete state, and an idle
run over a reconnection event. -/
theorem c10_dead_tick_witness :
    tick st10w = ({ st10w with pending := 0 }, []) ∧
    (run st0 [Ev.evConnect]).1.pending = 0 :=
  ⟨c10_dead_tick_amended.1 st10w rfl (by decide) rfl,
   (c10_dead_tick_amended.2 st0 [Ev.evConnect] rfl (by decide)).1⟩
